import Mathlib

/-!
Verification of the Ledger Consistency & Cash-Flow Forecasting Engine of
the `cash_flow` repository (`app.py`, `cash_flow.py`).

The embedding models balances and amounts over `ℚ` (the Python code uses
floats; the properties under scrutiny are about the exact arithmetic of
the effect table and the frequency normalizer), dates as year/month/day
triples compared lexicographically (Python `datetime.date` comparison),
and the relational store as explicit lists and id-indexed balance maps.
-/

namespace CashFlow

/-- Transaction/rule kind, the `type` column: `'income'` or `'expense'`. -/
inductive TxnKind where
  | income
  | expense
deriving DecidableEq, Repr

/-- A calendar date (year, month, day), as Python `datetime.date`. -/
structure MDate where
  year : Nat
  month : Nat
  day : Nat
deriving DecidableEq, Repr

/-- Python `date` strict comparison `a < b` (lexicographic). -/
def dateLT (a b : MDate) : Bool :=
  a.year < b.year ||
    (a.year == b.year &&
      (a.month < b.month || (a.month == b.month && a.day < b.day)))

/-- Python `date` comparison `a <= b` (lexicographic). -/
def dateLE (a b : MDate) : Bool :=
  a.year < b.year ||
    (a.year == b.year &&
      (a.month < b.month || (a.month == b.month && a.day ≤ b.day)))

/-- Python `str.lower` on a single ASCII character. -/
def lowerChar (c : Char) : Char :=
  if 'A' ≤ c ∧ c ≤ 'Z' then Char.ofNat (c.toNat + 32) else c

/-- Python `str.lower` (ASCII), used as `row['frequency'].lower()`. -/
def lowerStr (s : String) : String :=
  ⟨s.data.map lowerChar⟩

/-- The balance columns mutated by the reconciler, indexed by row id:
`bank_accounts.balance` and `credit_cards.current_balance`. -/
@[ext]
structure Balances where
  accounts : Nat → ℚ
  cards : Nat → ℚ

/-- An `actual_transactions` row (the fields the reconciler touches). -/
structure Txn where
  amount : ℚ
  kind : TxnKind
  account_id : Option Nat
  credit_card_id : Option Nat
deriving DecidableEq, Repr

/-- Balance effect of inserting an actual transaction
(`app.py` 1469-1487): an expense on a credit card raises
`current_balance`, an expense on a bank account lowers `balance`, an
income on a bank account raises `balance`; the three conditionals run in
sequence. -/
def applyTxn (s : Balances) (t : Txn) : Balances :=
  let s1 : Balances :=
    match t.kind, t.credit_card_id with
    | TxnKind.expense, some cid =>
        { s with cards := Function.update s.cards cid (s.cards cid + t.amount) }
    | _, _ => s
  let s2 : Balances :=
    match t.kind, t.account_id with
    | TxnKind.expense, some aid =>
        { s1 with accounts := Function.update s1.accounts aid (s1.accounts aid - t.amount) }
    | _, _ => s1
  let s3 : Balances :=
    match t.kind, t.account_id with
    | TxnKind.income, some aid =>
        { s2 with accounts := Function.update s2.accounts aid (s2.accounts aid + t.amount) }
    | _, _ => s2
  s3

/-- Balance effect of deleting an actual transaction
(`app.py` 1715-1731): the mirror image of `applyTxn`, run before the row
is deleted. -/
def reverseTxn (s : Balances) (t : Txn) : Balances :=
  let s1 : Balances :=
    match t.kind, t.credit_card_id with
    | TxnKind.expense, some cid =>
        { s with cards := Function.update s.cards cid (s.cards cid - t.amount) }
    | _, _ => s
  let s2 : Balances :=
    match t.kind, t.account_id with
    | TxnKind.expense, some aid =>
        { s1 with accounts := Function.update s1.accounts aid (s1.accounts aid + t.amount) }
    | _, _ => s1
  let s3 : Balances :=
    match t.kind, t.account_id with
    | TxnKind.income, some aid =>
        { s2 with accounts := Function.update s2.accounts aid (s2.accounts aid - t.amount) }
    | _, _ => s2
  s3

/-- Balance effect of updating an actual transaction
(`app.py` 1616-1669): first the three reversal conditionals on the
original row's values, then the three application conditionals on the
new values, transcribed in the order the code runs them. -/
def updateTxn (s : Balances) (old new : Txn) : Balances :=
  let s1 : Balances :=
    match old.kind, old.credit_card_id with
    | TxnKind.expense, some cid =>
        { s with cards := Function.update s.cards cid (s.cards cid - old.amount) }
    | _, _ => s
  let s2 : Balances :=
    match old.kind, old.account_id with
    | TxnKind.expense, some aid =>
        { s1 with accounts := Function.update s1.accounts aid (s1.accounts aid + old.amount) }
    | _, _ => s1
  let s3 : Balances :=
    match old.kind, old.account_id with
    | TxnKind.income, some aid =>
        { s2 with accounts := Function.update s2.accounts aid (s2.accounts aid - old.amount) }
    | _, _ => s2
  let s4 : Balances :=
    match new.kind, new.credit_card_id with
    | TxnKind.expense, some cid =>
        { s3 with cards := Function.update s3.cards cid (s3.cards cid + new.amount) }
    | _, _ => s3
  let s5 : Balances :=
    match new.kind, new.account_id with
    | TxnKind.expense, some aid =>
        { s4 with accounts := Function.update s4.accounts aid (s4.accounts aid - new.amount) }
    | _, _ => s4
  let s6 : Balances :=
    match new.kind, new.account_id with
    | TxnKind.income, some aid =>
        { s5 with accounts := Function.update s5.accounts aid (s5.accounts aid + new.amount) }
    | _, _ => s5
  s6

/-- The stored transaction rows together with the balance columns. -/
structure LedgerState where
  txns : List Txn
  balances : Balances

/-- The Add Transaction submit handler (`app.py` 1455-1493): when
description and category are non-empty it INSERTs the row and runs the
three balance conditionals; otherwise it only warns and changes
nothing.  There is no other validation. -/
def insertTxn (st : LedgerState) (description category : String) (t : Txn) : LedgerState :=
  if description ≠ "" ∧ category ≠ "" then
    { txns := st.txns ++ [t], balances := applyTxn st.balances t }
  else
    st

/-- A `recurring_transactions` row (the fields the core touches). -/
structure RRule where
  amount : ℚ
  rtype : TxnKind
  frequency : String
  start_date : MDate
  end_date : Option MDate
  is_active : Bool
  account_id : Option Nat
deriving DecidableEq, Repr

/-- `calculate_monthly_amount` (`app.py` 2187-2211), the Cash-Flow
Aggregator's frequency normalizer: monthly amount by frequency, with a
window test for one-time rules and a monthly default for anything
unrecognized.  The floats `4.33` and `2.17` are the rationals
`433/100` and `217/100`. -/
def calculate_monthly_amount (month_start month_end : MDate) (r : RRule) : ℚ :=
  let frequency := lowerStr r.frequency
  let amount := r.amount
  if frequency = "monthly" then amount
  else if frequency = "semi-monthly" then amount * 2
  else if frequency = "weekly" then amount * (433 / 100 : ℚ)
  else if frequency = "bi-weekly" then amount * (217 / 100 : ℚ)
  else if frequency = "quarterly" then amount / 3
  else if frequency = "annually" then amount / 12
  else if frequency = "one-time" then
    if dateLE month_start r.start_date && dateLE r.start_date month_end then amount
    else 0
  else amount

/-- The Aggregator's recurring-rule SQL filter (`app.py` 2157-2169):
`is_active = 1 AND start_date <= month_end AND (end_date IS NULL OR
end_date >= month_start) AND type = 'expense'`. -/
def aggregatorEligible (month_start month_end : MDate) (r : RRule) : Bool :=
  r.is_active && dateLE r.start_date month_end &&
    (match r.end_date with
     | none => true
     | some e => dateLE month_start e) &&
    decide (r.rtype = TxnKind.expense)

/-- The Aggregator's expected total (`app.py` 2213-2217): the sum of
`monthly_amount` over the rule rows returned by the SQL filter. -/
def expectedTotal (month_start month_end : MDate) (rules : List RRule) : ℚ :=
  ((rules.filter (aggregatorEligible month_start month_end)).map
    (calculate_monthly_amount month_start month_end)).sum

/-- The Aggregator's percent difference (`app.py` 2246-2248 and
2283-2286): `difference / expected * 100` when `expected > 0`, else
`0`. -/
def percent_diff (difference expected_total : ℚ) : ℚ :=
  if expected_total > 0 then difference / expected_total * 100 else 0

/-- The Balance Forecaster's per-rule monthly amount (`app.py`
2671-2705): smoothed values for sub-monthly frequencies, discrete
fire/no-fire amounts for quarterly, annual and one-time rules, monthly
default otherwise.  `next_month` is the month being forecast (always a
first-of-month date).  The Python `months_diff` subtraction is on `Int`
and `%` is Euclidean, as in Python. -/
def forecastMonthlyAmount (next_month : MDate) (r : RRule) : ℚ :=
  let frequency := lowerStr r.frequency
  let amount := r.amount
  if frequency = "monthly" then amount
  else if frequency = "semi-monthly" then amount * 2
  else if frequency = "weekly" then amount * (433 / 100 : ℚ)
  else if frequency = "bi-weekly" then amount * (217 / 100 : ℚ)
  else if frequency = "quarterly" then
    let months_diff : Int :=
      ((next_month.year : Int) - (r.start_date.year : Int)) * 12 +
        ((next_month.month : Int) - (r.start_date.month : Int))
    if months_diff % 3 = 0 then amount else 0
  else if frequency = "annually" then
    if next_month.month = r.start_date.month then amount else 0
  else if frequency = "one-time" then
    if next_month.year = r.start_date.year ∧ next_month.month = r.start_date.month then
      amount
    else 0
  else amount

/-- One rule's signed contribution to one forecast month (`app.py`
2662-2710): skip when `start_date > next_month` or when `end_date` is
set and `end_date < next_month`; otherwise add the monthly amount for
income and subtract it for expense. -/
def ruleContribution (next_month : MDate) (r : RRule) : ℚ :=
  if dateLT next_month r.start_date then 0
  else if (match r.end_date with
           | some e => dateLT e next_month
           | none => false) then 0
  else if r.rtype = TxnKind.income then forecastMonthlyAmount next_month r
  else -(forecastMonthlyAmount next_month r)

/-- One forecast iteration (`app.py` 2621-2710): the SQL pulls only
`is_active = 1` rules, and the loop folds each rule's contribution for
`next_month` into the running balance. -/
def forecastStep (rules : List RRule) (next_month : MDate) (balance : ℚ) : ℚ :=
  (rules.filter (fun r => r.is_active)).foldl
    (fun acc r => acc + ruleContribution next_month r) balance

/-- The forecast month arithmetic (`app.py` 2651-2654): advance
`forecast_start` (a first-of-month date) by `i` calendar months with
Python `%` and `//`, keeping the day. -/
def nextMonthDate (forecast_start : MDate) (i : Nat) : MDate :=
  if (forecast_start.month + i) % 12 = 0 then
    { forecast_start with
        year := forecast_start.year + (forecast_start.month + i) / 12 - 1
        month := 12 }
  else
    { forecast_start with
        year := forecast_start.year + (forecast_start.month + i - 1) / 12
        month := (forecast_start.month + i - 1) % 12 + 1 }

/-- The projected balance after `i` forecast months (`app.py`
2643-2713): the starting balance at `i = 0`, and each later month is
the previous month's balance plus that month's rule contributions. -/
def forecastBalanceAt (rules : List RRule) (forecast_start : MDate) (balance0 : ℚ) :
    Nat → ℚ
  | 0 => balance0
  | i + 1 =>
      forecastStep rules (nextMonthDate forecast_start (i + 1))
        (forecastBalanceAt rules forecast_start balance0 i)

/-- The `forecast_balances` list (`app.py` 2640-2713): the starting
balance followed by one projected balance per forecast month. -/
def forecastBalances (rules : List RRule) (forecast_start : MDate) (balance0 : ℚ)
    (forecast_months : Nat) : List ℚ :=
  (List.range (forecast_months + 1)).map (forecastBalanceAt rules forecast_start balance0)

/-- A `bank_accounts` row (the fields the delete paths touch). -/
structure AccountRow where
  id : Nat
  balance : ℚ
deriving DecidableEq, Repr

/-- The relational store as seen by the account delete paths. -/
structure DB where
  accounts : List AccountRow
  recurring : List RRule
  txns : List Txn
deriving DecidableEq, Repr

/-- The Delete Account handler of `manage_bank_accounts` (`app.py`
574-601): count recurring and actual rows linked to the account; on any
link report the conflict and change nothing (`false`), otherwise delete
the account row (`true`). -/
def deleteAccount (db : DB) (aid : Nat) : DB × Bool :=
  let recurring_count := (db.recurring.filter (fun r => r.account_id = some aid)).length
  let actual_count := (db.txns.filter (fun t => t.account_id = some aid)).length
  if recurring_count > 0 ∨ actual_count > 0 then
    (db, false)
  else
    ({ db with accounts := db.accounts.filter (fun a => a.id ≠ aid) }, true)

/-- The Delete Selected Account handler of `display_bank_accounts`
(`cash_flow.py` 154-167): `DELETE FROM bank_accounts WHERE id = ?` with
no check for linked rows. -/
def deleteAccountUnchecked (db : DB) (aid : Nat) : DB :=
  { db with accounts := db.accounts.filter (fun a => a.id ≠ aid) }

/-- One CSV import row (`app.py` 1864-1927) under the sign
interpretation `Positive=Income, Negative=Expense` with no type column:
the stored amount is `abs` of the CSV amount, the kind is income
exactly when the original amount is `> 0`, the row is INSERTed, and the
same three balance conditionals as the insert path run on the absolute
amount. -/
def importRow (st : LedgerState) (original_amount : ℚ)
    (account_id credit_card_id : Option Nat) : LedgerState :=
  let amount_value := |original_amount|
  let type_value : TxnKind :=
    if original_amount > 0 then TxnKind.income else TxnKind.expense
  let t : Txn :=
    { amount := amount_value, kind := type_value
      account_id := account_id, credit_card_id := credit_card_id }
  { txns := st.txns ++ [t], balances := applyTxn st.balances t }

/-- The spec's month eligibility for a recurring rule (§4.1): active,
started by `month_end`, and not ended before `month_start`.  This is
the aggregator SQL filter without its `type = 'expense'` clause, stated
once so both engines can be measured against it. -/
def ruleEligible (month_start month_end : MDate) (r : RRule) : Bool :=
  r.is_active && dateLE r.start_date month_end &&
    (match r.end_date with
     | none => true
     | some e => dateLE month_start e)

/-- A ledger balance map with every account and card at zero. -/
def zeroBalances : Balances :=
  { accounts := fun _ => 0, cards := fun _ => 0 }

/-- A one-time $100 expense rule starting mid-month on 2024-03-15. -/
def oneTimeMarch15 : RRule :=
  { amount := 100, rtype := TxnKind.expense, frequency := "one-time"
    start_date := ⟨2024, 3, 15⟩, end_date := none, is_active := true
    account_id := none }

/-- A store holding one account (id 1, balance 100) and one actual
transaction linked to it. -/
def dbOneLinked : DB :=
  { accounts := [⟨1, 100⟩]
    recurring := []
    txns := [{ amount := 50, kind := TxnKind.expense, account_id := some 1
               credit_card_id := none }] }

/-! ## Helper lemmas -/

/-- Date comparison totality: `a < b` exactly when not `b <= a`. -/
theorem dateLT_iff_not_dateLE (a b : MDate) : dateLT a b = true ↔ ¬ dateLE b a = true := by
  simp [dateLT, dateLE]
  omega

/-- If a date is beyond day `d` of a month, it is beyond day 1 of it. -/
theorem dateLT_day_one_of_dateLT_day {y m d : Nat} {a : MDate}
    (hd : 1 ≤ d) (h : dateLT (⟨y, m, d⟩ : MDate) a = true) :
    dateLT (⟨y, m, 1⟩ : MDate) a = true := by
  simp [dateLT] at h ⊢
  omega

/-- A rule whose start-date guard trips contributes nothing. -/
theorem ruleContribution_eq_zero_of_not_started {next_month : MDate} {r : RRule}
    (h : dateLT next_month r.start_date = true) :
    ruleContribution next_month r = 0 := by
  simp [ruleContribution, h]

/-- A rule whose end-date guard trips contributes nothing. -/
theorem ruleContribution_eq_zero_of_ended {next_month : MDate} {r : RRule} {e : MDate}
    (he : r.end_date = some e) (h : dateLT e next_month = true) :
    ruleContribution next_month r = 0 := by
  simp [ruleContribution, he, h]

/-- Folding balance additions over a list equals adding the summed
contributions. -/
theorem foldl_add_eq_add_sum (f : RRule → ℚ) (l : List RRule) (b : ℚ) :
    l.foldl (fun acc r => acc + f r) b = b + (l.map f).sum := by
  induction l generalizing b with
  | nil => simp
  | cons r l ih =>
      rw [List.foldl_cons, ih, List.map_cons, List.sum_cons]
      ring

set_option maxHeartbeats 1000000 in
/-- `calculate_monthly_amount` is nonnegative for nonnegative rule
amounts. -/
theorem calculate_monthly_amount_nonneg (month_start month_end : MDate) (r : RRule)
    (h : 0 ≤ r.amount) :
    0 ≤ calculate_monthly_amount month_start month_end r := by
  simp only [calculate_monthly_amount]
  split_ifs <;>
    first
      | exact h
      | exact div_nonneg h (by norm_num)
      | exact mul_nonneg h (by norm_num)
      | norm_num

/-- The aggregator's expected total is nonnegative when every rule
amount is nonnegative. -/
theorem expectedTotal_nonneg (month_start month_end : MDate) (rules : List RRule)
    (h : ∀ r ∈ rules, 0 ≤ r.amount) :
    0 ≤ expectedTotal month_start month_end rules := by
  unfold expectedTotal
  apply List.sum_nonneg
  intro x hx
  simp only [List.mem_map, List.mem_filter] at hx
  obtain ⟨r, ⟨hr, _⟩, rfl⟩ := hx
  exact calculate_monthly_amount_nonneg _ _ _ (h r hr)

/-! ## C1: reconciliation invertibility -/

/-- C1: for every actual transaction (either kind, linked to an
account, a card, or neither) and every balance state, applying the
transaction's balance effect and then reversing it restores every
account and card balance exactly. -/
theorem reverse_apply_roundtrip (s : Balances) (t : Txn) :
    reverseTxn (applyTxn s t) t = s := by
  obtain ⟨amt, k, acc, cc⟩ := t
  cases k <;> cases acc <;> cases cc <;>
    · ext x <;> simp [applyTxn, reverseTxn, Function.update_idem]

/-! ## C2: update is reverse-then-apply -/

/-- C2: the update handler's balance effect on any balance state equals
reversing the original transaction and then applying the new one, for
every kind/linkage combination, with no special-cased partial update. -/
theorem update_eq_reverse_then_apply (s : Balances) (old new : Txn) :
    updateTxn s old new = applyTxn (reverseTxn s old) new := rfl

/-! ## C3: monthly equivalence values -/

/-- C3: for a rule of amount 100, `calculate_monthly_amount` yields
monthly 100, semi-monthly 200, weekly 433, bi-weekly 217, quarterly
100/3 (33.33 within half a cent), annually 100/12 (8.33 within half a
cent), and 100 for any unrecognized frequency. -/
theorem monthly_equivalent_values :
    ∀ (ms me sd : MDate) (ed : Option MDate) (act : Bool) (aid : Option Nat),
    calculate_monthly_amount ms me ⟨100, TxnKind.expense, "monthly", sd, ed, act, aid⟩ = 100 ∧
    calculate_monthly_amount ms me ⟨100, TxnKind.expense, "semi-monthly", sd, ed, act, aid⟩ = 200 ∧
    calculate_monthly_amount ms me ⟨100, TxnKind.expense, "weekly", sd, ed, act, aid⟩ = 433 ∧
    calculate_monthly_amount ms me ⟨100, TxnKind.expense, "bi-weekly", sd, ed, act, aid⟩ = 217 ∧
    (calculate_monthly_amount ms me ⟨100, TxnKind.expense, "quarterly", sd, ed, act, aid⟩ = 100 / 3 ∧
      |calculate_monthly_amount ms me ⟨100, TxnKind.expense, "quarterly", sd, ed, act, aid⟩ -
        3333 / 100| < 1 / 200) ∧
    (calculate_monthly_amount ms me ⟨100, TxnKind.expense, "annually", sd, ed, act, aid⟩ = 100 / 12 ∧
      |calculate_monthly_amount ms me ⟨100, TxnKind.expense, "annually", sd, ed, act, aid⟩ -
        833 / 100| < 1 / 200) ∧
    (∀ f : String, lowerStr f ≠ "monthly" → lowerStr f ≠ "semi-monthly" →
      lowerStr f ≠ "weekly" → lowerStr f ≠ "bi-weekly" → lowerStr f ≠ "quarterly" →
      lowerStr f ≠ "annually" → lowerStr f ≠ "one-time" →
      calculate_monthly_amount ms me ⟨100, TxnKind.expense, f, sd, ed, act, aid⟩ = 100) := by
  intro ms me sd ed act aid
  have hq : calculate_monthly_amount ms me ⟨100, TxnKind.expense, "quarterly", sd, ed, act, aid⟩
      = 100 / 3 := by
    norm_num +decide [calculate_monthly_amount]
  have ha : calculate_monthly_amount ms me ⟨100, TxnKind.expense, "annually", sd, ed, act, aid⟩
      = 100 / 12 := by
    norm_num +decide [calculate_monthly_amount]
  refine ⟨?_, ?_, ?_, ?_, ⟨hq, ?_⟩, ⟨ha, ?_⟩, ?_⟩
  · norm_num +decide [calculate_monthly_amount]
  · norm_num +decide [calculate_monthly_amount]
  · norm_num +decide [calculate_monthly_amount]
  · norm_num +decide [calculate_monthly_amount]
  · rw [hq, abs_sub_lt_iff]
    constructor <;> norm_num
  · rw [ha, abs_sub_lt_iff]
    constructor <;> norm_num
  · intro f h1 h2 h3 h4 h5 h6 h7
    simp only [calculate_monthly_amount]
    rw [if_neg h1, if_neg h2, if_neg h3, if_neg h4, if_neg h5, if_neg h6, if_neg h7]

/-- C3 witness: an unrecognized frequency falls back to the plain
amount at a concrete input. -/
theorem monthly_equivalent_values_witness :
    calculate_monthly_amount ⟨2024, 1, 1⟩ ⟨2024, 1, 31⟩
      ⟨100, TxnKind.expense, "fortnightly", ⟨2024, 1, 5⟩, none, true, none⟩ = 100 :=
  (monthly_equivalent_values ⟨2024, 1, 1⟩ ⟨2024, 1, 31⟩ ⟨2024, 1, 5⟩ none true
      none).2.2.2.2.2.2 "fortnightly" (by decide) (by decide) (by decide) (by decide)
    (by decide) (by decide) (by decide)

/-! ## C4: month eligibility gates both engines -/

/-- C4: a rule that is inactive, or starts after the last day of the
target month, or ends before the first day of the target month,
contributes nothing to that month in either the Cash-Flow Aggregator's
expected total or the Balance Forecaster's monthly step. -/
theorem rule_eligibility_gates_contribution
    (r : RRule) (rules : List RRule) (y m d : Nat) (bal : ℚ)
    (hd : 1 ≤ d)
    (hfail : ruleEligible ⟨y, m, 1⟩ ⟨y, m, d⟩ r = false) :
    expectedTotal ⟨y, m, 1⟩ ⟨y, m, d⟩ (r :: rules) =
        expectedTotal ⟨y, m, 1⟩ ⟨y, m, d⟩ rules ∧
    forecastStep (r :: rules) ⟨y, m, 1⟩ bal = forecastStep rules ⟨y, m, 1⟩ bal := by
  constructor
  · have hagg : aggregatorEligible ⟨y, m, 1⟩ ⟨y, m, d⟩ r = false := by
      rw [ruleEligible] at hfail
      rw [aggregatorEligible]
      cases h3 : (match r.end_date with
        | none => true
        | some e => dateLE (⟨y, m, 1⟩ : MDate) e) <;>
        simp_all
    simp [expectedTotal, List.filter_cons, hagg]
  · by_cases hact : r.is_active = true
    · have h0 : ruleContribution ⟨y, m, 1⟩ r = 0 := by
        cases hsd : dateLE r.start_date ⟨y, m, d⟩ with
        | false =>
            have hlt : dateLT (⟨y, m, d⟩ : MDate) r.start_date = true := by
              rw [dateLT_iff_not_dateLE]
              simp [hsd]
            exact ruleContribution_eq_zero_of_not_started
              (dateLT_day_one_of_dateLT_day hd hlt)
        | true =>
            cases he : r.end_date with
            | none =>
                exfalso
                rw [ruleEligible] at hfail
                simp [hact, hsd, he] at hfail
            | some e =>
                have hle : dateLE ⟨y, m, 1⟩ e = false := by
                  rw [ruleEligible] at hfail
                  simp [hact, hsd, he] at hfail
                  simp [hfail]
                have hlt : dateLT e ⟨y, m, 1⟩ = true := by
                  rw [dateLT_iff_not_dateLE]
                  simp [hle]
                exact ruleContribution_eq_zero_of_ended he hlt
      simp [forecastStep, List.filter_cons, hact, h0]
    · simp [forecastStep, List.filter_cons, hact]

/-- C4 witness: an inactive rule contributes nothing to May 2024 in
either engine. -/
theorem rule_eligibility_gates_contribution_witness :
    expectedTotal ⟨2024, 5, 1⟩ ⟨2024, 5, 31⟩
        [⟨100, TxnKind.expense, "monthly", ⟨2024, 1, 1⟩, none, false, none⟩] =
      expectedTotal ⟨2024, 5, 1⟩ ⟨2024, 5, 31⟩ [] ∧
    forecastStep [⟨100, TxnKind.expense, "monthly", ⟨2024, 1, 1⟩, none, false, none⟩]
        ⟨2024, 5, 1⟩ 7 =
      forecastStep [] ⟨2024, 5, 1⟩ 7 :=
  rule_eligibility_gates_contribution
    ⟨100, TxnKind.expense, "monthly", ⟨2024, 1, 1⟩, none, false, none⟩ [] 2024 5 31 7
    (by norm_num) (by decide)

/-! ## C5: one-time firing in the forecaster -/

/-- C5: contrary to the spec, the forecaster's start-date guard
compares against the first day of the target month, so the one-time
rule starting 2024-03-15 contributes nothing in March 2024 (or any
other month): the one-time firing branch is unreachable for a
mid-month start date. -/
theorem one_time_mid_month_rule_never_fires :
    (∀ y m : Nat, ruleContribution ⟨y, m, 1⟩ oneTimeMarch15 = 0) ∧
    forecastStep [oneTimeMarch15] ⟨2024, 2, 1⟩ 1000 = 1000 ∧
    forecastStep [oneTimeMarch15] ⟨2024, 3, 1⟩ 1000 = 1000 ∧
    forecastStep [oneTimeMarch15] ⟨2024, 4, 1⟩ 1000 = 1000 := by
  have hz : ∀ y m : Nat, ruleContribution ⟨y, m, 1⟩ oneTimeMarch15 = 0 := by
    intro y m
    by_cases h : dateLT ⟨y, m, 1⟩ (⟨2024, 3, 15⟩ : MDate) = true
    · exact ruleContribution_eq_zero_of_not_started h
    · have hym : ¬(y = 2024 ∧ m = 3) := by
        simp [dateLT] at h
        omega
      simp +decide [ruleContribution, forecastMonthlyAmount, oneTimeMarch15, h, hym]
  refine ⟨hz, ?_, ?_, ?_⟩ <;>
    · norm_num +decide [forecastStep, ruleContribution, forecastMonthlyAmount,
        oneTimeMarch15, dateLT, List.filter]

/-! ## C6: forecast scenario and shape -/

/-- C6: with one account at 1000 and one active monthly expense rule of
200 starting in the forecast's first month, a 3-month forecast yields
the balances [1000, 800, 600, 400]; in general the output has length
N+1 including the starting point, and each month's balance is the
previous month's balance plus the signed contributions of the active
rules for that month. -/
theorem forecast_scenario_and_shape :
    forecastBalances
        [{ amount := 200, rtype := TxnKind.expense, frequency := "monthly"
           start_date := ⟨2024, 1, 1⟩, end_date := none, is_active := true
           account_id := none }] ⟨2024, 1, 1⟩ 1000 3 = [1000, 800, 600, 400] ∧
    (∀ (rules : List RRule) (fs : MDate) (b0 : ℚ) (n : Nat),
        (forecastBalances rules fs b0 n).length = n + 1) ∧
    (∀ (rules : List RRule) (fs : MDate) (b0 : ℚ) (i : Nat),
        forecastBalanceAt rules fs b0 (i + 1) =
          forecastBalanceAt rules fs b0 i +
            ((rules.filter (fun r => r.is_active)).map
              (ruleContribution (nextMonthDate fs (i + 1)))).sum) := by
  refine ⟨?_, ?_, ?_⟩
  · norm_num +decide [forecastBalances, forecastBalanceAt, forecastStep, ruleContribution,
      forecastMonthlyAmount, nextMonthDate, dateLT, List.range_succ]
  · intro rules fs b0 n
    simp [forecastBalances]
  · intro rules fs b0 i
    rw [forecastBalanceAt, forecastStep, foldl_add_eq_add_sum]

/-! ## C7: income transaction targeting a credit card -/

/-- C7 counterexample: an income transaction linked to a credit card is
not rejected before persistence — the Add Transaction handler stores
the row (balances are untouched, but the claim requires that no
transaction row be stored). -/
theorem income_card_insert_stores_row :
    (insertTxn { txns := [], balances := zeroBalances } "Refund" "Misc"
        { amount := 50, kind := TxnKind.income, account_id := none,
          credit_card_id := some 1 }).txns =
      [{ amount := 50, kind := TxnKind.income, account_id := none,
         credit_card_id := some 1 }] := by
  rfl

/-- C7 amended: an income transaction targeting a credit card (with a
non-empty description and category) is accepted and persisted, and no
account or card balance changes — the combination is ignored, not
rejected. -/
theorem income_card_insert_ignored
    (st : LedgerState) (description category : String) (t : Txn)
    (hd : description ≠ "") (hc : category ≠ "")
    (hk : t.kind = TxnKind.income) (ha : t.account_id = none) :
    insertTxn st description category t =
      { txns := st.txns ++ [t], balances := st.balances } := by
  obtain ⟨amt, k, acc, cc⟩ := t
  cases k with
  | expense => simp at hk
  | income =>
      cases acc with
      | some a => exact absurd ha (by simp)
      | none =>
          rw [insertTxn, if_pos ⟨hd, hc⟩]
          cases cc <;> rfl

/-- C7 witness: a concrete income-on-card insert is persisted with
balances unchanged. -/
theorem income_card_insert_ignored_witness :
    insertTxn { txns := [], balances := zeroBalances } "Refund" "Misc"
        { amount := 50, kind := TxnKind.income, account_id := none,
          credit_card_id := some 1 } =
      { txns := [{ amount := 50, kind := TxnKind.income, account_id := none,
                   credit_card_id := some 1 }]
        balances := zeroBalances } :=
  income_card_insert_ignored _ _ _ _ (by decide) (by decide) rfl rfl

/-! ## C8: deleting an account with linked rows -/

/-- C8 counterexample: the delete handler in `cash_flow.py`'s
`display_bank_accounts` removes an account that still has a linked
actual transaction — the delete is not rejected and the account row is
gone. -/
theorem unchecked_delete_drops_linked_account :
    (deleteAccountUnchecked dbOneLinked 1).accounts = [] ∧
    dbOneLinked.accounts = [⟨1, 100⟩] ∧
    (deleteAccountUnchecked dbOneLinked 1).txns = dbOneLinked.txns := by
  refine ⟨?_, rfl, rfl⟩
  rfl

/-- C8 amended: the `app.py` delete handler rejects the delete of an
account with at least one linked recurring or actual transaction row
and leaves the whole store — account row, linked rows, and balances —
unchanged; `cash_flow.py`'s older delete handler performs the delete
unconditionally. -/
theorem checked_delete_rejects_linked
    (db : DB) (aid : Nat)
    (h : (db.recurring.filter (fun r => r.account_id = some aid)).length > 0 ∨
         (db.txns.filter (fun t => t.account_id = some aid)).length > 0) :
    deleteAccount db aid = (db, false) := by
  rw [deleteAccount, if_pos h]

/-- C8 witness: deleting account 1, which has one linked transaction,
is refused and the store is returned unchanged. -/
theorem checked_delete_rejects_linked_witness :
    deleteAccount dbOneLinked 1 = (dbOneLinked, false) :=
  checked_delete_rejects_linked dbOneLinked 1 (Or.inr (by decide))

/-! ## C9: percent difference degeneracy -/

/-- C9: for an aggregation built from rules with nonnegative amounts,
the percent difference is 0 when expected spending is zero, and equals
(actual − expected) / expected × 100 when expected is non-zero. -/
theorem percent_diff_degenerate_zero
    (month_start month_end : MDate) (rules : List RRule) (actual_total : ℚ)
    (hamts : ∀ r ∈ rules, 0 ≤ r.amount) :
    (expectedTotal month_start month_end rules = 0 →
        percent_diff (actual_total - expectedTotal month_start month_end rules)
          (expectedTotal month_start month_end rules) = 0) ∧
    (expectedTotal month_start month_end rules ≠ 0 →
        percent_diff (actual_total - expectedTotal month_start month_end rules)
          (expectedTotal month_start month_end rules) =
          (actual_total - expectedTotal month_start month_end rules) /
            expectedTotal month_start month_end rules * 100) := by
  have hexp := expectedTotal_nonneg month_start month_end rules hamts
  constructor
  · intro h0
    simp [percent_diff, h0]
  · intro hne
    have hpos : 0 < expectedTotal month_start month_end rules :=
      lt_of_le_of_ne hexp (Ne.symm hne)
    simp [percent_diff, hpos]

/-- C9 witness: with no eligible rules the expected total is zero and
the percent difference is 0 rather than a division error. -/
theorem percent_diff_degenerate_zero_witness :
    percent_diff (50 - expectedTotal ⟨2024, 1, 1⟩ ⟨2024, 1, 31⟩ [])
      (expectedTotal ⟨2024, 1, 1⟩ ⟨2024, 1, 31⟩ []) = 0 :=
  (percent_diff_degenerate_zero ⟨2024, 1, 1⟩ ⟨2024, 1, 31⟩ [] 50 (by simp)).1 rfl

/-! ## C10: CSV import sign interpretation -/

/-- C10: a CSV row imported under `Positive=Income, Negative=Expense`
is stored with the absolute value of the CSV amount (never negative),
its kind is income exactly when the original amount is strictly
positive (zero or negative becomes expense), and the balance effect is
applied with the absolute amount. -/
theorem import_row_abs_amount_sign (st : LedgerState) (o : ℚ) (acc cc : Option Nat) :
    ∃ t : Txn,
      (importRow st o acc cc).txns = st.txns ++ [t] ∧
      t.amount = |o| ∧
      0 ≤ t.amount ∧
      (t.kind = TxnKind.income ↔ 0 < o) ∧
      t.kind = (if o > 0 then TxnKind.income else TxnKind.expense) ∧
      t.account_id = acc ∧
      t.credit_card_id = cc ∧
      (importRow st o acc cc).balances = applyTxn st.balances t := by
  refine ⟨_, rfl, rfl, abs_nonneg o, ?_, rfl, rfl, rfl, rfl⟩
  by_cases h : 0 < o <;> simp [h]

end CashFlow
